import Mathlib

/-!
Verification of the page-object / contextual-logging core of the
`my-playwright-mcp` end-to-end test suite.

The development shallowly embeds the TypeScript sources:
  * `utils/logger.ts` — worker context, prefix computation, custom winston
    levels, and the convenience message formatters (`logPageAction`,
    `logError`, `logElementAction`);
  * `pages/base.page.ts` — `getUrl` / `navigate` / `waitForUrl` with their
    try/log/rethrow error handling, and `logElementActionLocal`;
  * `pages/login.page.ts`, `pages/register.page.ts`, `pages/welcome.page.ts`
    — the concrete page variants, their `url` getters and composite actions;
  * `fixtures/pages.ts` — the fixture bodies that set the worker context and
    construct the page objects.

Effectful methods are embedded as explicit state-passing programs over an
event trace (log emissions and driver calls), with a fallible driver
supplying the outcome of each underlying Playwright call; a thrown error is
an `error` result carrying the trace accumulated so far, mirroring
JavaScript `async`/`await` exception propagation.
-/

/-! ## Logger: worker context and prefixes (`utils/logger.ts`) -/

/-- `WorkerContext` from `utils/logger.ts`: both fields optional. -/
structure WorkerContext where
  workerId : Option String := none
  workerIndex : Option Nat := none
deriving DecidableEq, Repr

/-- JavaScript truthiness of an optional string: `undefined` and the empty
string are falsy, every other string is truthy. -/
def strTruthy : Option String → Bool
  | some s => s ≠ ""
  | none => false

/-- `setWorkerContext`: replaces the module-level `workerContext` wholesale.
The first argument is the new context, the second the previous state. -/
def setWorkerContext (context : WorkerContext) (_previous : WorkerContext) : WorkerContext :=
  context

/-- `getWorkerPrefix` from `utils/logger.ts`:
`if (workerContext.workerId) return` the id prefix (truthiness test!);
`if (workerContext.workerIndex !== undefined) return` the index prefix;
otherwise the empty string. -/
def getWorkerPrefix (ctx : WorkerContext) : String :=
  if strTruthy ctx.workerId then
    "[Worker-" ++ ctx.workerId.getD "" ++ "] "
  else
    match ctx.workerIndex with
    | some idx => "[Worker-" ++ toString idx ++ "] "
    | none => ""

/-! ## Logger: levels (`utils/logger.ts`, `customLevels`) -/

/-- The five custom winston levels declared in `utils/logger.ts`. -/
inductive LogLevel where
  | error
  | test
  | assert
  | meth
  | elem
deriving DecidableEq, Repr, Fintype

/-- The numeric table `customLevels.levels` from `utils/logger.ts`:
`error: 0, test: 1, assert: 2, meth: 3, elem: 4`. -/
def customLevels : LogLevel → Nat
  | .error => 0
  | .test => 1
  | .assert => 2
  | .meth => 3
  | .elem => 4

/-- Modelled from the spec: the emission rule of the winston logging library
(an external collaborator whose sources are not part of this repository).
`createLogger` passes `customLevels.levels` and a configured minimum level to
winston; per the spec, "a configured minimum level suppresses emission of any
level below it (severity ordering over the fixed enumeration)", i.e. a record
at level `l` is emitted under configured minimum `m` exactly when `l`'s
number does not exceed `m`'s number (lower number = higher urgency). -/
def winstonEmits (l m : LogLevel) : Bool :=
  customLevels l ≤ customLevels m

/-- The spec's severity ranking of §4.1, "error > test > assert > method >
element", read left to right from highest to lowest severity. -/
def specSeverity : LogLevel → Nat
  | .error => 4
  | .test => 3
  | .assert => 2
  | .meth => 1
  | .elem => 0

/-! ## Logger: message formatters (`utils/logger.ts`) -/

/-- A JavaScript `Error` as the logger sees it: a message and an optional
stack trace. -/
structure JsError where
  message : String
  stack : Option String := none
deriving DecidableEq, Repr

/-- The message built by `logPageAction(pageName, action, details?)`:
``details ? `[pageName] action - details` : `[pageName] action` ``. -/
def logPageActionMessage (pageName action : String) (details : Option String) : String :=
  if strTruthy details then
    "[" ++ pageName ++ "] " ++ action ++ " - " ++ details.getD ""
  else
    "[" ++ pageName ++ "] " ++ action

/-- The message built by `logError(error, context?)`:
``context ? `Error in context: error.message` : `Error: error.message` ``. -/
def logErrorMessage (error : JsError) (context : Option String) : String :=
  if strTruthy context then
    "Error in " ++ context.getD "" ++ ": " ++ error.message
  else
    "Error: " ++ error.message

/-- The message built by `logElementAction(pageName, action, elementName,
selector, value?)`: with a truthy `value` the message ends in
`with value: "value"`, otherwise the value clause is absent. -/
def logElementActionMessage (pageName action elementName selector : String)
    (value : Option String) : String :=
  if strTruthy value then
    "[" ++ pageName ++ "] " ++ action ++ " on \"" ++ elementName ++ "\" (" ++ selector ++
      ") with value: \"" ++ value.getD "" ++ "\""
  else
    "[" ++ pageName ++ "] " ++ action ++ " on \"" ++ elementName ++ "\" (" ++ selector ++ ")"

/-! ## Pages: driver, event traces, and runs

`BasePage` methods and the concrete page actions are `async` methods driving
a Playwright `Page`. They are embedded as state-passing programs over a
trace of events: each logger convenience call appends a log event carrying
its arguments (its emitted message is the corresponding formatter applied to
them), and each awaited Playwright call appends a driver event and then
either continues or throws the error the driver reports for that call. -/

/-- One awaited Playwright primitive, identified the way the page objects
address it (URL, or the locator fixed in the page constructor). -/
inductive DriverCall where
  | pageUrl
  | goto (url : String)
  | waitForURL (url : String)
  | fill (locator value : String)
  | click (locator : String)
deriving DecidableEq, Repr

/-- One observable event of a run: a log emission (carrying the arguments of
the logger convenience call that produced it) or a driver call. -/
inductive Event where
  | pageActionLog (pageName action : String) (details : Option String)
  | errorLog (error : JsError) (context : Option String)
  | elementLog (pageName action elementName selector : String) (value : Option String)
  | driver (call : DriverCall)
deriving DecidableEq, Repr

/-- The driver session behind a page: the outcome of each Playwright call
(`none` = success, `some e` = the call throws `e`) and the location
`page.url()` reports on success. -/
structure Driver where
  result : DriverCall → Option JsError
  currentUrl : String

/-- Outcome of running an `async` page method: the returned value or the
propagated error, together with the full event trace. -/
inductive RunResult (α : Type) where
  | ok (value : α) (events : List Event)
  | error (e : JsError) (events : List Event)
deriving DecidableEq, Repr

/-- A page method: a function from the trace accumulated so far to a result. -/
abbrev Run (α : Type) := List Event → RunResult α

/-- Sequencing of two awaited steps: the second runs only if the first did
not throw (`await a; await b`). -/
def runSeq (a : Run Unit) (b : Run Unit) : Run Unit := fun evs =>
  match a evs with
  | .ok _ evs' => b evs'
  | .error e evs' => .error e evs'

/-- Emitting a log event: never fails, appends the event. -/
def emitEvent (ev : Event) : Run Unit := fun evs =>
  .ok () (evs ++ [ev])

/-- Awaiting one driver call: the call is issued (recorded), then the run
continues or throws exactly the error the driver reports. -/
def awaitCall (drv : Driver) (c : DriverCall) : Run Unit := fun evs =>
  match drv.result c with
  | none => .ok () (evs ++ [.driver c])
  | some e => .error e (evs ++ [.driver c])

/-- The `try { body } catch (error) { logError(error, context); throw error }`
pattern of every `BasePage` method: on failure, append the `logError` record
and rethrow the same error. -/
def tryLogRethrow {α : Type} (body : Run α) (context : String) : Run α := fun evs =>
  match body evs with
  | .ok a evs' => .ok a evs'
  | .error e evs' => .error e (evs' ++ [.errorLog e (some context)])

/-! ## `BasePage` (`pages/base.page.ts`) -/

/-- `BasePage.logElementActionLocal`: forwards to `logElementAction` with
this page's logical name pre-filled. -/
def BasePage.logElementActionLocal (pageName action elementName selector : String)
    (value : Option String) : Run Unit :=
  emitEvent (.elementLog pageName action elementName selector value)

/-- `BasePage.getUrl`: `try { return page.url() } catch { logError; throw }`. -/
def BasePage.getUrl (pageName : String) (drv : Driver) : Run String :=
  tryLogRethrow
    (fun evs =>
      match drv.result .pageUrl with
      | none => .ok drv.currentUrl (evs ++ [.driver .pageUrl])
      | some e => .error e (evs ++ [.driver .pageUrl]))
    (pageName ++ ".getUrl")

/-- `BasePage.navigate`: `try { logPageAction(...); await page.goto(url) }
catch { logError; throw }`. -/
def BasePage.navigate (pageName : String) (drv : Driver) (url : String) : Run Unit :=
  tryLogRethrow
    (runSeq (emitEvent (.pageActionLog pageName "Navigate to page" (some url)))
      (awaitCall drv (.goto url)))
    (pageName ++ ".navigate")

/-- `BasePage.waitForUrl`: `try { logPageAction(...); await page.waitForURL(url) }
catch { logError; throw }`. -/
def BasePage.waitForUrl (pageName : String) (drv : Driver) (url : String) : Run Unit :=
  tryLogRethrow
    (runSeq (emitEvent (.pageActionLog pageName "Wait for URL" (some url)))
      (awaitCall drv (.waitForURL url)))
    (pageName ++ ".waitForUrl")

/-! ## Endpoints and the concrete page variants -/

/-- Modelled from the spec: the endpoint configuration (module `config/urls`,
imported by every page as `endpoints`, is not among the repository's source
files). Per §6 it is "a static mapping from logical page name to path (e.g.,
registration, login, landing) supplied by external configuration" which the
core "reads but never mutates". -/
structure Endpoints where
  login : String
  register : String
  welcome : String
deriving DecidableEq, Repr

/-- `LoginPage.url` getter: `return endpoints.login`. -/
def LoginPage.url (endpoints : Endpoints) : String := endpoints.login

/-- `RegisterPage.url` getter: `return endpoints.register`. -/
def RegisterPage.url (endpoints : Endpoints) : String := endpoints.register

/-- `WelcomePage.url` getter: `return endpoints.welcome`. -/
def WelcomePage.url (endpoints : Endpoints) : String := endpoints.welcome

/-- The payload of `RegisterPage.fillForm` / `registerUser`. -/
structure RegisterData where
  firstName : String
  lastName : String
  email : String
  password : String
deriving DecidableEq, Repr

/-- `RegisterPage.goto`: `await this.navigate(this.url)`. -/
def RegisterPage.goto (endpoints : Endpoints) (drv : Driver) : Run Unit :=
  BasePage.navigate "RegisterPage" drv (RegisterPage.url endpoints)

/-- `RegisterPage.fillForm`: for each of the four fields, a
`logElementActionLocal` call followed by an awaited `fill` on the locator
fixed in the constructor; the password log carries the mask `"***"`, the
fill the raw password. -/
def RegisterPage.fillForm (drv : Driver) (data : RegisterData) : Run Unit :=
  runSeq (BasePage.logElementActionLocal "RegisterPage" "fill" "first name input"
      "[data-testid=\"firstName\"]" (some data.firstName))
  (runSeq (awaitCall drv (.fill "firstname-input" data.firstName))
  (runSeq (BasePage.logElementActionLocal "RegisterPage" "fill" "last name input"
      "[data-testid=\"lastName\"]" (some data.lastName))
  (runSeq (awaitCall drv (.fill "lastname-input" data.lastName))
  (runSeq (BasePage.logElementActionLocal "RegisterPage" "fill" "email input"
      "[data-testid=\"email\"]" (some data.email))
  (runSeq (awaitCall drv (.fill "email-input" data.email))
  (runSeq (BasePage.logElementActionLocal "RegisterPage" "fill" "password input"
      "[data-testid=\"password\"]" (some "***"))
  (awaitCall drv (.fill "password-input" data.password))))))))

/-- `RegisterPage.submit`: log, then awaited click on the submit button. -/
def RegisterPage.submit (drv : Driver) : Run Unit :=
  runSeq (BasePage.logElementActionLocal "RegisterPage" "click" "submit button"
      "[data-testid=\"submit\"]" none)
    (awaitCall drv (.click "register-button"))

/-- `RegisterPage.registerUser`: `await goto(); await fillForm(data); await
submit()`. -/
def RegisterPage.registerUser (endpoints : Endpoints) (drv : Driver) (data : RegisterData) :
    Run Unit :=
  runSeq (RegisterPage.goto endpoints drv)
    (runSeq (RegisterPage.fillForm drv data) (RegisterPage.submit drv))

/-- `LoginPage.goto`: `await this.navigate(this.url)`. -/
def LoginPage.goto (endpoints : Endpoints) (drv : Driver) : Run Unit :=
  BasePage.navigate "LoginPage" drv (LoginPage.url endpoints)

/-- `LoginPage.login`: navigate, then log+fill email, log(masked)+fill
password, log+click submit. -/
def LoginPage.login (endpoints : Endpoints) (drv : Driver) (email password : String) : Run Unit :=
  runSeq (LoginPage.goto endpoints drv)
  (runSeq (BasePage.logElementActionLocal "LoginPage" "fill" "email input"
      "[data-testid=\"email\"]" (some email))
  (runSeq (awaitCall drv (.fill "Enter User Email" email))
  (runSeq (BasePage.logElementActionLocal "LoginPage" "fill" "password input"
      "[data-testid=\"password\"]" (some "***"))
  (runSeq (awaitCall drv (.fill "Enter Password" password))
  (runSeq (BasePage.logElementActionLocal "LoginPage" "click" "submit button"
      "[data-testid=\"submit\"]" none)
  (awaitCall drv (.click "LogIn")))))))

/-- `WelcomePage.navigateAndWaitFor`: `await navigate(this.url); await
waitForUrl(this.url)`. -/
def WelcomePage.navigateAndWaitFor (endpoints : Endpoints) (drv : Driver) : Run Unit :=
  runSeq (BasePage.navigate "WelcomePage" drv (WelcomePage.url endpoints))
    (BasePage.waitForUrl "WelcomePage" drv (WelcomePage.url endpoints))

/-! ## Trace projections -/

/-- The event trace of a run, whether it succeeded or threw. -/
def eventsOf {α : Type} : RunResult α → List Event
  | .ok _ evs => evs
  | .error _ evs => evs

/-- The driver calls of a trace, in order. -/
def driverCallsOf (evs : List Event) : List DriverCall :=
  evs.filterMap fun ev =>
    match ev with
    | .driver c => some c
    | _ => none

/-- How many clicks (submit invocations) a trace contains. -/
def clickCount (evs : List Event) : Nat :=
  (driverCallsOf evs).countP fun c =>
    match c with
    | .click _ => true
    | _ => false

/-- The messages of the element-action log records about the password field,
in order: the rendered `logElementAction` message of every `elementLog` event
whose element name is `"password input"`. -/
def passwordFieldLogs (evs : List Event) : List String :=
  evs.filterMap fun ev =>
    match ev with
    | .elementLog pn act en sel v =>
      if en = "password input" then some (logElementActionMessage pn act en sel v) else none
    | _ => none

/-- **C10.** `logElementAction` treats the empty-string value exactly like an
absent value: the emitted message has no value clause and coincides with the
message produced when no value is passed at all. -/
theorem logElementAction_empty_value (pageName action elementName selector : String) :
    logElementActionMessage pageName action elementName selector (some "") =
      logElementActionMessage pageName action elementName selector none := by
  simp [logElementActionMessage, strTruthy]


/-- The fixed, documented order of driver calls of `registerUser`: navigate,
fill first name, fill last name, fill email, fill password, click submit. -/
def registerUserCallOrder (endpoints : Endpoints) (data : RegisterData) : List DriverCall :=
  [.goto (RegisterPage.url endpoints),
   .fill "firstname-input" data.firstName,
   .fill "lastname-input" data.lastName,
   .fill "email-input" data.email,
   .fill "password-input" data.password,
   .click "register-button"]

/-! ## Test fixtures (`fixtures/pages.ts`) -/

/-- One step a fixture body performs before handing the page to the test. -/
inductive FixtureEvent where
  | setContext (ctx : WorkerContext)
  | constructPage (pageName : String)
deriving DecidableEq, Repr

/-- The worker context each fixture passes to `setWorkerContext`:
`{ workerId: testInfo.parallelIndex.toString(), workerIndex:
testInfo.parallelIndex }`. -/
def fixtureWorkerContext (parallelIndex : Nat) : WorkerContext :=
  { workerId := some (toString parallelIndex), workerIndex := some parallelIndex }

/-- The `registerPage` fixture body: `setWorkerContext(...)`, then
`new RegisterPage(page)` (constructed before `use` receives it). -/
def registerPageFixture (parallelIndex : Nat) : List FixtureEvent :=
  [.setContext (fixtureWorkerContext parallelIndex), .constructPage "RegisterPage"]

/-- The `loginPage` fixture body. -/
def loginPageFixture (parallelIndex : Nat) : List FixtureEvent :=
  [.setContext (fixtureWorkerContext parallelIndex), .constructPage "LoginPage"]

/-- The `welcomePage` fixture body. -/
def welcomePageFixture (parallelIndex : Nat) : List FixtureEvent :=
  [.setContext (fixtureWorkerContext parallelIndex), .constructPage "WelcomePage"]

/-- Every page construction in the event list is strictly preceded by a
`setContext` event carrying the given context. -/
def contextSetBeforeEveryConstruction (events : List FixtureEvent) (ctx : WorkerContext) : Prop :=
  ∀ k pg, events.get? k = some (.constructPage pg) →
    ∃ j, j < k ∧ events.get? j = some (.setContext ctx)

/-! ## Theorems about the logger -/

/-- **C2, counterexample.** The claim says that whenever the context carries
an identifier, the identifier takes precedence in the prefix. For the context
`{workerId: "", workerIndex: 7}` that would give the prefix `"[Worker-] "`,
but `getWorkerPrefix` tests the identifier for JavaScript truthiness, skips
the empty string, and produces `"[Worker-7] "` from the index instead. -/
theorem getWorkerPrefix_empty_id_counterexample :
    getWorkerPrefix (setWorkerContext ⟨some "", some 7⟩ ⟨none, none⟩) = "[Worker-7] " ∧
      ("[Worker-7] " : String) ≠ "[Worker-] " := by
  constructor
  · rfl
  · decide

/-- **C2 (amended).** After `setWorkerContext ctx` (and no intervening call),
the prefix of every emitted record corresponds to `ctx` as follows: a
*non-empty* identifier gives `"[Worker-<id>] "` (taking precedence over the
index), otherwise a present index gives `"[Worker-<index>] "`, otherwise the
prefix is empty. -/
theorem getWorkerPrefix_after_setWorkerContext (prev ctx : WorkerContext) :
    (∀ wid, ctx.workerId = some wid → wid ≠ "" →
      getWorkerPrefix (setWorkerContext ctx prev) = "[Worker-" ++ wid ++ "] ") ∧
    ((ctx.workerId = none ∨ ctx.workerId = some "") → ∀ idx, ctx.workerIndex = some idx →
      getWorkerPrefix (setWorkerContext ctx prev) = "[Worker-" ++ toString idx ++ "] ") ∧
    ((ctx.workerId = none ∨ ctx.workerId = some "") → ctx.workerIndex = none →
      getWorkerPrefix (setWorkerContext ctx prev) = "") := by
  obtain ⟨wid, idx⟩ := ctx
  refine ⟨?_, ?_, ?_⟩
  · rintro w rfl hw
    simp [setWorkerContext, getWorkerPrefix, strTruthy, hw]
  · rintro (h | h) i hi <;> simp_all [setWorkerContext, getWorkerPrefix, strTruthy]
  · rintro (h | h) hi <;> simp_all [setWorkerContext, getWorkerPrefix, strTruthy]

/-- Witness for the amended C2 theorem at a concrete context. -/
theorem getWorkerPrefix_after_setWorkerContext_witness :
    getWorkerPrefix (setWorkerContext ⟨some "5", some 3⟩ ⟨none, none⟩) = "[Worker-5] " :=
  (getWorkerPrefix_after_setWorkerContext ⟨none, none⟩ ⟨some "5", some 3⟩).1 "5" rfl (by decide)

/-- **C9.** `setWorkerContext` is idempotent with respect to prefixing:
calling it twice in succession with the same context leaves exactly the same
state — hence the same prefix on subsequent log calls — as calling it once;
no prefix text accumulates. -/
theorem setWorkerContext_idempotent (prev ctx : WorkerContext) :
    getWorkerPrefix (setWorkerContext ctx (setWorkerContext ctx prev)) =
      getWorkerPrefix (setWorkerContext ctx prev) ∧
    setWorkerContext ctx (setWorkerContext ctx prev) = setWorkerContext ctx prev :=
  ⟨rfl, rfl⟩

/-- **C7.** The numeric table `customLevels.levels` realizes exactly the
spec's fixed severity order `error > test > assert > method > element`
(lower winston number = higher severity), and a record at level `l` is
emitted under configured minimum `m` precisely when `l`'s severity is at
least `m`'s severity; every level strictly below the minimum is suppressed. -/
theorem customLevels_severity_order :
    (customLevels .error < customLevels .test ∧
     customLevels .test < customLevels .assert ∧
     customLevels .assert < customLevels .meth ∧
     customLevels .meth < customLevels .elem) ∧
    (∀ l m : LogLevel, winstonEmits l m = true ↔ specSeverity m ≤ specSeverity l) := by
  decide

/-- Witness for C7: an `elem`-level record is emitted under minimum `elem`. -/
theorem customLevels_severity_order_witness :
    winstonEmits .elem .elem = true :=
  (customLevels_severity_order.2 .elem .elem).mpr (by decide)

/-- **C8.** `logElementAction` performs no redaction of its own: whatever
value it is given appears verbatim (as a literal substring) in the message it
emits. -/
theorem logElementAction_value_verbatim (pageName action elementName selector v : String) :
    ∃ x y : String,
      logElementActionMessage pageName action elementName selector (some v) = x ++ v ++ y := by
  by_cases h : v = ""
  · subst h
    exact ⟨logElementActionMessage pageName action elementName selector (some ""), "",
      by simp [String.append_empty]⟩
  · refine ⟨"[" ++ pageName ++ "] " ++ action ++ " on \"" ++ elementName ++ "\" (" ++
      selector ++ ") with value: \"", "\"", ?_⟩
    simp [logElementActionMessage, strTruthy, h, String.append_assoc]
/-! ## Theorems about the page abstraction and fixtures -/

/-- **C4.** Each driver-facing `BasePage` operation (`getUrl`, `navigate`,
`waitForUrl`), when the underlying driver call fails with `e`, re-raises
exactly `e` — unmodified and unwrapped — issues the driver call exactly once
(no internal retry), and adds nothing to the trace beyond log records. -/
theorem basePage_propagates_driver_errors (pageName : String) (drv : Driver) (url : String)
    (e : JsError) (evs : List Event) :
    (drv.result .pageUrl = some e →
      BasePage.getUrl pageName drv evs =
        .error e (evs ++ [.driver .pageUrl, .errorLog e (some (pageName ++ ".getUrl"))])) ∧
    (drv.result (.goto url) = some e →
      BasePage.navigate pageName drv url evs =
        .error e (evs ++ [.pageActionLog pageName "Navigate to page" (some url),
          .driver (.goto url), .errorLog e (some (pageName ++ ".navigate"))])) ∧
    (drv.result (.waitForURL url) = some e →
      BasePage.waitForUrl pageName drv url evs =
        .error e (evs ++ [.pageActionLog pageName "Wait for URL" (some url),
          .driver (.waitForURL url), .errorLog e (some (pageName ++ ".waitForUrl"))])) := by
  refine ⟨fun h => ?_, fun h => ?_, fun h => ?_⟩ <;>
    simp [BasePage.getUrl, BasePage.navigate, BasePage.waitForUrl, tryLogRethrow, runSeq,
      emitEvent, awaitCall, h]

/-- Witness for C4: a session whose every call fails with "session closed". -/
theorem basePage_propagates_driver_errors_witness :
    BasePage.getUrl "LoginPage" ⟨fun _ => some ⟨"session closed", none⟩, "x"⟩ [] =
      .error ⟨"session closed", none⟩
        [.driver .pageUrl, .errorLog ⟨"session closed", none⟩ (some "LoginPage.getUrl")] :=
  (basePage_propagates_driver_errors "LoginPage" ⟨fun _ => some ⟨"session closed", none⟩, "x"⟩
    "u" ⟨"session closed", none⟩ []).1 rfl

/-- **C5.** Each concrete page variant's `url` is the constant the external
endpoint configuration supplies for its logical name, and the navigation the
variants perform always targets exactly that constant: `RegisterPage.goto`
and `LoginPage.goto` issue one `goto` to their page's `url`, and
`WelcomePage.navigateAndWaitFor` only ever targets `WelcomePage.url`. -/
theorem pageUrls_constant (e : Endpoints) :
    (LoginPage.url e = e.login ∧ RegisterPage.url e = e.register ∧
      WelcomePage.url e = e.welcome) ∧
    (∀ drv evs, driverCallsOf (eventsOf (RegisterPage.goto e drv evs)) =
        driverCallsOf evs ++ [.goto (RegisterPage.url e)]) ∧
    (∀ drv evs, driverCallsOf (eventsOf (LoginPage.goto e drv evs)) =
        driverCallsOf evs ++ [.goto (LoginPage.url e)]) ∧
    (∀ drv, driverCallsOf (eventsOf (WelcomePage.navigateAndWaitFor e drv [])) =
        [.goto (WelcomePage.url e)] ∨
      driverCallsOf (eventsOf (WelcomePage.navigateAndWaitFor e drv [])) =
        [.goto (WelcomePage.url e), .waitForURL (WelcomePage.url e)]) := by
  refine ⟨⟨rfl, rfl, rfl⟩, ?_, ?_, ?_⟩
  · intro drv evs
    rcases h : drv.result (.goto (RegisterPage.url e)) with _ | e0 <;>
      simp [RegisterPage.goto, BasePage.navigate, tryLogRethrow, runSeq, emitEvent, awaitCall,
        h, driverCallsOf, eventsOf, List.filterMap_append]
  · intro drv evs
    rcases h : drv.result (.goto (LoginPage.url e)) with _ | e0 <;>
      simp [LoginPage.goto, BasePage.navigate, tryLogRethrow, runSeq, emitEvent, awaitCall,
        h, driverCallsOf, eventsOf, List.filterMap_append]
  · intro drv
    rcases h : drv.result (.goto (WelcomePage.url e)) with _ | e0
    · rcases h' : drv.result (.waitForURL (WelcomePage.url e)) with _ | e1 <;>
        simp [WelcomePage.navigateAndWaitFor, BasePage.navigate, BasePage.waitForUrl,
          tryLogRethrow, runSeq, emitEvent, awaitCall, h, h', driverCallsOf, eventsOf,
          List.filterMap_append]
    · simp [WelcomePage.navigateAndWaitFor, BasePage.navigate, BasePage.waitForUrl,
        tryLogRethrow, runSeq, emitEvent, awaitCall, h, driverCallsOf, eventsOf,
        List.filterMap_append]

/-- **C6.** In each of the three fixtures, `setWorkerContext` is invoked with
the invocation's execution context strictly before the page instance is
constructed. -/
theorem fixtures_setContext_before_construction (n : Nat) :
    contextSetBeforeEveryConstruction (registerPageFixture n) (fixtureWorkerContext n) ∧
    contextSetBeforeEveryConstruction (loginPageFixture n) (fixtureWorkerContext n) ∧
    contextSetBeforeEveryConstruction (welcomePageFixture n) (fixtureWorkerContext n) := by
  refine ⟨?_, ?_, ?_⟩ <;>
  · intro k pg h
    match k with
    | 0 =>
      simp [registerPageFixture, loginPageFixture, welcomePageFixture, List.get?] at h
    | 1 => exact ⟨0, Nat.zero_lt_one, rfl⟩
    | (k + 2) =>
      simp [registerPageFixture, loginPageFixture, welcomePageFixture, List.get?] at h

/-- Witness for C6 at worker index 0: the construction at position 1 of the
`registerPage` fixture is preceded by the `setContext` event at position 0. -/
theorem fixtures_setContext_before_construction_witness :
    ∃ j, j < 1 ∧
      (registerPageFixture 0).get? j = some (.setContext (fixtureWorkerContext 0)) :=
  (fixtures_setContext_before_construction 0).1 1 "RegisterPage" rfl

/-- **C3.** The password-field log records of `RegisterPage.fillForm` and
`LoginPage.login` carry only the fixed mask token `"***"`, never the raw
password: every password-field message rendered in any run equals the masked
message, and two runs differing only in the password produce identical
password-field log messages. -/
theorem password_field_logs_masked (e : Endpoints) (drv : Driver) (d : RegisterData)
    (pw pw' em : String) :
    (passwordFieldLogs (eventsOf (RegisterPage.fillForm drv { d with password := pw } [])) =
      passwordFieldLogs (eventsOf (RegisterPage.fillForm drv { d with password := pw' } []))) ∧
    (∀ m, m ∈ passwordFieldLogs (eventsOf (RegisterPage.fillForm drv d [])) →
      m = logElementActionMessage "RegisterPage" "fill" "password input"
            "[data-testid=\"password\"]" (some "***")) ∧
    (passwordFieldLogs (eventsOf (LoginPage.login e drv em pw [])) =
      passwordFieldLogs (eventsOf (LoginPage.login e drv em pw' []))) ∧
    (∀ m, m ∈ passwordFieldLogs (eventsOf (LoginPage.login e drv em pw [])) →
      m = logElementActionMessage "LoginPage" "fill" "password input"
            "[data-testid=\"password\"]" (some "***")) := by
  refine ⟨?_, ?_, ?_, ?_⟩
  · rcases h1 : drv.result (.fill "firstname-input" d.firstName) with _ | e1 <;>
      rcases h2 : drv.result (.fill "lastname-input" d.lastName) with _ | e2 <;>
      rcases h3 : drv.result (.fill "email-input" d.email) with _ | e3 <;>
      rcases h4 : drv.result (.fill "password-input" pw) with _ | e4 <;>
      rcases h4' : drv.result (.fill "password-input" pw') with _ | e4'' <;>
      simp [RegisterPage.fillForm, BasePage.logElementActionLocal, runSeq, emitEvent,
        awaitCall, h1, h2, h3, h4, h4', eventsOf, passwordFieldLogs]
  · intro m hm
    rcases h1 : drv.result (.fill "firstname-input" d.firstName) with _ | e1 <;>
      rcases h2 : drv.result (.fill "lastname-input" d.lastName) with _ | e2 <;>
      rcases h3 : drv.result (.fill "email-input" d.email) with _ | e3 <;>
      rcases h4 : drv.result (.fill "password-input" d.password) with _ | e4 <;>
      simp_all [RegisterPage.fillForm, BasePage.logElementActionLocal, runSeq, emitEvent,
        awaitCall, eventsOf, passwordFieldLogs]
  · rcases h0 : drv.result (.goto (LoginPage.url e)) with _ | e0 <;>
      rcases h1 : drv.result (.fill "Enter User Email" em) with _ | e1 <;>
      rcases h2 : drv.result (.fill "Enter Password" pw) with _ | e2 <;>
      rcases h2' : drv.result (.fill "Enter Password" pw') with _ | e2'' <;>
      rcases h3 : drv.result (.click "LogIn") with _ | e3 <;>
      simp [LoginPage.login, LoginPage.goto, BasePage.navigate, BasePage.logElementActionLocal,
        tryLogRethrow, runSeq, emitEvent, awaitCall, h0, h1, h2, h2', h3, eventsOf,
        passwordFieldLogs]
  · intro m hm
    rcases h0 : drv.result (.goto (LoginPage.url e)) with _ | e0 <;>
      rcases h1 : drv.result (.fill "Enter User Email" em) with _ | e1 <;>
      rcases h2 : drv.result (.fill "Enter Password" pw) with _ | e2 <;>
      rcases h3 : drv.result (.click "LogIn") with _ | e3 <;>
      simp_all [LoginPage.login, LoginPage.goto, BasePage.navigate,
        BasePage.logElementActionLocal, tryLogRethrow, runSeq, emitEvent, awaitCall,
        eventsOf, passwordFieldLogs]

/-- Witness for C3: with an all-succeeding driver, the single password-field
record of a concrete `fillForm` run is the masked message. -/
theorem password_field_logs_masked_witness :
    logElementActionMessage "RegisterPage" "fill" "password input"
        "[data-testid=\"password\"]" (some "***") ∈
      passwordFieldLogs (eventsOf (RegisterPage.fillForm ⟨fun _ => none, ""⟩
        ⟨"John", "Doe", "jd@example.com", "Secret123!"⟩ [])) ∧
    logElementActionMessage "RegisterPage" "fill" "password input"
        "[data-testid=\"password\"]" (some "***") =
      logElementActionMessage "RegisterPage" "fill" "password input"
        "[data-testid=\"password\"]" (some "***") :=
  ⟨by decide,
   (password_field_logs_masked ⟨"l", "r", "w"⟩ ⟨fun _ => none, ""⟩
      ⟨"John", "Doe", "jd@example.com", "Secret123!"⟩ "p" "q" "em").2.1
     (logElementActionMessage "RegisterPage" "fill" "password input"
        "[data-testid=\"password\"]" (some "***")) (by decide)⟩

/-- **C1.** `registerUser` executes its steps in the fixed order navigate,
fill firstName, fill lastName, fill email, fill password, submit: a
successful run issues exactly this call sequence; a failing run issues a
prefix of it, halting at the failing call, whose driver error is the one
propagated, and if the failure is at navigation or any fill (any position
before the click) then submit was never invoked (click count 0). -/
theorem registerUser_strict_sequence (e : Endpoints) (drv : Driver) (d : RegisterData) :
    (∀ evs, RegisterPage.registerUser e drv d [] = RunResult.ok () evs →
      driverCallsOf evs = registerUserCallOrder e d) ∧
    (∀ err evs, RegisterPage.registerUser e drv d [] = RunResult.error err evs →
      ∃ k, k < 6 ∧ driverCallsOf evs = (registerUserCallOrder e d).take (k + 1) ∧
        (∃ c, (registerUserCallOrder e d).get? k = some c ∧ drv.result c = some err) ∧
        (k < 5 → clickCount evs = 0)) := by
  constructor
  · intro evs h
    rcases h0 : drv.result (DriverCall.goto (RegisterPage.url e)) with _ | e0 <;>
      rcases h1 : drv.result (DriverCall.fill "firstname-input" d.firstName) with _ | e1 <;>
      rcases h2 : drv.result (DriverCall.fill "lastname-input" d.lastName) with _ | e2 <;>
      rcases h3 : drv.result (DriverCall.fill "email-input" d.email) with _ | e3 <;>
      rcases h4 : drv.result (DriverCall.fill "password-input" d.password) with _ | e4 <;>
      rcases h5 : drv.result (DriverCall.click "register-button") with _ | e5 <;>
      simp_all [RegisterPage.registerUser, RegisterPage.goto, RegisterPage.fillForm,
        RegisterPage.submit, RegisterPage.url, BasePage.navigate,
        BasePage.logElementActionLocal, tryLogRethrow, runSeq, emitEvent, awaitCall,
        driverCallsOf, registerUserCallOrder]
    subst h
    simp
  · intro err evs h
    simp only [RegisterPage.registerUser, RegisterPage.goto, RegisterPage.fillForm,
      RegisterPage.submit, RegisterPage.url, BasePage.navigate,
      BasePage.logElementActionLocal, tryLogRethrow, runSeq, emitEvent, awaitCall,
      List.nil_append, List.singleton_append, List.cons_append, List.append_assoc] at h
    rcases h0 : drv.result (DriverCall.goto e.register) with _ | e0 <;>
      simp only [h0] at h
    · rcases h1 : drv.result (DriverCall.fill "firstname-input" d.firstName) with _ | e1 <;>
        simp only [h1] at h
      · rcases h2 : drv.result (DriverCall.fill "lastname-input" d.lastName) with _ | e2 <;>
          simp only [h2] at h
        · rcases h3 : drv.result (DriverCall.fill "email-input" d.email) with _ | e3 <;>
            simp only [h3] at h
          · rcases h4 : drv.result (DriverCall.fill "password-input" d.password) with _ | e4 <;>
              simp only [h4] at h
            · rcases h5 : drv.result (DriverCall.click "register-button") with _ | e5 <;>
                simp only [h5] at h
              · exact RunResult.noConfusion h
              · rw [RunResult.error.injEq] at h
                obtain ⟨rfl, rfl⟩ := h
                exact ⟨5, by omega,
                  by simp [driverCallsOf, registerUserCallOrder, RegisterPage.url],
                  ⟨DriverCall.click "register-button", rfl, h5⟩,
                  fun hk => absurd hk (by omega)⟩
            · rw [RunResult.error.injEq] at h
              obtain ⟨rfl, rfl⟩ := h
              exact ⟨4, by omega,
                by simp [driverCallsOf, registerUserCallOrder, RegisterPage.url],
                ⟨DriverCall.fill "password-input" d.password, rfl, h4⟩,
                fun _ => by simp [clickCount, driverCallsOf]⟩
          · rw [RunResult.error.injEq] at h
            obtain ⟨rfl, rfl⟩ := h
            exact ⟨3, by omega,
              by simp [driverCallsOf, registerUserCallOrder, RegisterPage.url],
              ⟨DriverCall.fill "email-input" d.email, rfl, h3⟩,
              fun _ => by simp [clickCount, driverCallsOf]⟩
        · rw [RunResult.error.injEq] at h
          obtain ⟨rfl, rfl⟩ := h
          exact ⟨2, by omega,
            by simp [driverCallsOf, registerUserCallOrder, RegisterPage.url],
            ⟨DriverCall.fill "lastname-input" d.lastName, rfl, h2⟩,
            fun _ => by simp [clickCount, driverCallsOf]⟩
      · rw [RunResult.error.injEq] at h
        obtain ⟨rfl, rfl⟩ := h
        exact ⟨1, by omega,
          by simp [driverCallsOf, registerUserCallOrder, RegisterPage.url],
          ⟨DriverCall.fill "firstname-input" d.firstName, rfl, h1⟩,
          fun _ => by simp [clickCount, driverCallsOf]⟩
    · rw [RunResult.error.injEq] at h
      obtain ⟨rfl, rfl⟩ := h
      exact ⟨0, by omega,
        by simp [driverCallsOf, registerUserCallOrder, RegisterPage.url],
        ⟨DriverCall.goto e.register, rfl, h0⟩,
        fun _ => by simp [clickCount, driverCallsOf]⟩

/-- Witness for C1: a driver whose every `fill` throws "detached". The run
halts at the first fill (k = 1); the calls issued are navigate and that one
fill, and no click was ever issued. -/
theorem registerUser_strict_sequence_witness :
    ∃ k, k < 6 ∧
      driverCallsOf
          [Event.pageActionLog "RegisterPage" "Navigate to page" (some "https://r"),
           Event.driver (DriverCall.goto "https://r"),
           Event.elementLog "RegisterPage" "fill" "first name input"
             "[data-testid=\"firstName\"]" (some "John"),
           Event.driver (DriverCall.fill "firstname-input" "John")] =
        (registerUserCallOrder ⟨"https://l", "https://r", "https://w"⟩
          ⟨"John", "Doe", "jd@example.com", "pw"⟩).take (k + 1) ∧
      (∃ c, (registerUserCallOrder ⟨"https://l", "https://r", "https://w"⟩
            ⟨"John", "Doe", "jd@example.com", "pw"⟩).get? k = some c ∧
        (Driver.mk (fun c =>
          match c with
          | DriverCall.fill _ _ => some ⟨"detached", none⟩
          | _ => none) "").result c = some ⟨"detached", none⟩) ∧
      (k < 5 → clickCount
          [Event.pageActionLog "RegisterPage" "Navigate to page" (some "https://r"),
           Event.driver (DriverCall.goto "https://r"),
           Event.elementLog "RegisterPage" "fill" "first name input"
             "[data-testid=\"firstName\"]" (some "John"),
           Event.driver (DriverCall.fill "firstname-input" "John")] = 0) :=
  (registerUser_strict_sequence ⟨"https://l", "https://r", "https://w"⟩
    (Driver.mk (fun c =>
      match c with
      | DriverCall.fill _ _ => some ⟨"detached", none⟩
      | _ => none) "")
    ⟨"John", "Doe", "jd@example.com", "pw"⟩).2 ⟨"detached", none⟩
    [Event.pageActionLog "RegisterPage" "Navigate to page" (some "https://r"),
     Event.driver (DriverCall.goto "https://r"),
     Event.elementLog "RegisterPage" "fill" "first name input"
       "[data-testid=\"firstName\"]" (some "John"),
     Event.driver (DriverCall.fill "firstname-input" "John")] (by decide)
